import Mathlib

/-
Shallow embedding of the python-hotkeys repository (frontend hotkey.py and the
three platform backends windows.py, posix.py, xserver.py).

Machine integers are modelled as Nat (Python ints are unbounded, the modifier
masks are small non-negative values).  Python exceptions are modelled with the
PyErr type and fallible code returns Except PyErr.  External key-code tables
(KEY_CODES modules) are parameters of the translate functions, as the spec
treats them as static data.
-/

/-- Python exceptions that appear in the translated code. -/
inductive PyErr where
  | keyError (k : String)
  | keyErrorCode (c : Nat × Nat)
  | keyErrorId (n : Nat)
  | valueError (s : String)
  | hotKeyError (msg : String)
  | implError (msg : String)
  | assertionError
deriving DecidableEq, Repr

/-- Association-list lookup, the model of a Python dict read (first match wins;
keys are kept unique by the operations that insert). -/
def alookup {α β : Type} [BEq α] (l : List (α × β)) (k : α) : Option β :=
  match l with
  | [] => none
  | p :: rest => if p.1 == k then some p.2 else alookup rest k

/-- Characters stripped by Python str.strip() with no argument. -/
def pyIsSpace (c : Char) : Bool :=
  c = ' ' || c = '\t' || c = '\n' || c = '\r' || c = '\x0b' || c = '\x0c'

/-- Python str.strip() on a character list. -/
def stripChars (cs : List Char) : List Char :=
  ((cs.dropWhile pyIsSpace).reverse.dropWhile pyIsSpace).reverse

/-- Python s.split('+') on a character list: split at every plus sign. -/
def splitPlus : List Char → List (List Char)
  | [] => [[]]
  | c :: rest =>
    let r := splitPlus rest
    if c = '+' then [] :: r
    else
      match r with
      | [] => [[c]]
      | g :: gs => (c :: g) :: gs

/-- parts = [s.strip() for s in s.split('+')], as in every backend translate. -/
def pyParts (s : String) : List String :=
  (splitPlus s.data).map (fun cs => String.mk (stripChars cs))

/-- Does the token start with the literal prefix 0x (case-sensitive, as the
startswith("0x") checks in the sources)? -/
def startsWith0x : List Char → Bool
  | '0' :: 'x' :: _ => true
  | _ => false

/-- Value of one hexadecimal digit. -/
def hexDigitVal (c : Char) : Option Nat :=
  if '0' ≤ c ∧ c ≤ '9' then some (c.toNat - '0'.toNat)
  else if 'a' ≤ c ∧ c ≤ 'f' then some (c.toNat - 'a'.toNat + 10)
  else if 'A' ≤ c ∧ c ≤ 'F' then some (c.toNat - 'A'.toNat + 10)
  else none

/-- Fold hexadecimal digits, most significant first. -/
def hexFold (acc : Nat) : List Char → Option Nat
  | [] => some acc
  | c :: rest =>
    match hexDigitVal c with
    | some d => hexFold (acc * 16 + d) rest
    | none => none

/-- Python int(key, 0) restricted to the 0x-prefixed form the sources feed it. -/
def pyIntBase0 (cs : List Char) : Option Nat :=
  match cs with
  | '0' :: 'x' :: rest =>
    match rest with
    | [] => none
    | _ => hexFold 0 rest
  | _ => none

/-- Python str.upper() on one character (the modifier names are ASCII). -/
def pyUpperChar (c : Char) : Char :=
  if 'a' ≤ c ∧ c ≤ 'z' then Char.ofNat (c.toNat - 32) else c

/-- Python str.upper() as applied to the modifier tokens. -/
def pyUpper (s : String) : String :=
  String.mk (s.data.map pyUpperChar)

/-- The modifier loop shared by all three translate functions:
mod = 0; for m in parts[:-1]: mod |= TABLE[m.upper()]. -/
def resolveModsAux (tbl : List (String × Nat)) (acc : Nat) : List String → Except PyErr Nat
  | [] => .ok acc
  | m :: rest =>
    match alookup tbl (pyUpper m) with
    | some v => resolveModsAux tbl (acc ||| v) rest
    | none => .error (.keyError (pyUpper m))

/-- translate of windows.py and posix.py: the key table is consulted first and
only on a KeyError is a 0x literal accepted, otherwise the KeyError is
re-raised; then the modifier loop runs. -/
def translateKeyFirst (modTbl keyTbl : List (String × Nat)) (s : String) :
    Except PyErr (Nat × Nat) :=
  let parts := pyParts s
  let key := parts.getLastD ""
  let vkE : Except PyErr Nat :=
    match alookup keyTbl key with
    | some vk => .ok vk
    | none =>
      if startsWith0x key.data then
        match pyIntBase0 key.data with
        | some n => .ok n
        | none => .error (.valueError key)
      else .error (.keyError key)
  match vkE with
  | .error e => .error e
  | .ok vk =>
    match resolveModsAux modTbl 0 parts.dropLast with
    | .error e => .error e
    | .ok mod => .ok (mod, vk)

/-- translate of xserver.py: the 0x check comes first, otherwise the key table
is indexed directly; then the modifier loop runs. -/
def translateHexFirst (modTbl keyTbl : List (String × Nat)) (s : String) :
    Except PyErr (Nat × Nat) :=
  let parts := pyParts s
  let key := parts.getLastD ""
  let vkE : Except PyErr Nat :=
    if startsWith0x key.data then
      match pyIntBase0 key.data with
      | some n => .ok n
      | none => .error (.valueError key)
    else
      match alookup keyTbl key with
      | some vk => .ok vk
      | none => .error (.keyError key)
  match vkE with
  | .error e => .error e
  | .ok vk =>
    match resolveModsAux modTbl 0 parts.dropLast with
    | .error e => .error e
    | .ok mod => .ok (mod, vk)

namespace Windows

/-- MODIFIERS table of windows.py. -/
def MODIFIERS : List (String × Nat) :=
  [("ALT", 1), ("MENU", 1), ("CTRL", 2), ("CONTROL", 2), ("SHIFT", 4),
   ("MOD4", 8), ("WIN", 8)]

/-- translate of windows.py, parameterised by the external KEY_CODES table. -/
def translate (KEY_CODES : List (String × Nat)) (s : String) :
    Except PyErr (Nat × Nat) :=
  translateKeyFirst MODIFIERS KEY_CODES s

end Windows

namespace Posix

/-- NAMED_MODIFIERS table of posix.py. -/
def NAMED_MODIFIERS : List (String × Nat) :=
  [("ALT", 1), ("LEFTALT", 1), ("RIGHTALT", 1), ("MENU", 1),
   ("CTRL", 2), ("CONTROL", 2), ("LEFTCTRL", 2), ("RIGHTCTRL", 2),
   ("SHIFT", 4), ("LEFTSHIFT", 4), ("RIGHTSHIFT", 4),
   ("MOD4", 8), ("WIN", 8), ("META", 8), ("LEFTMETA", 8), ("RIGHTMETA", 8)]

/-- translate of posix.py, parameterised by the external KEY_CODES table. -/
def translate (KEY_CODES : List (String × Nat)) (s : String) :
    Except PyErr (Nat × Nat) :=
  translateKeyFirst NAMED_MODIFIERS KEY_CODES s

end Posix

namespace Xserver

/-- X modifier mask constants (Xlib protocol values). -/
def ShiftMask : Nat := 1

def ControlMask : Nat := 4

def Mod1Mask : Nat := 8

def Mod2Mask : Nat := 16

def Mod3Mask : Nat := 32

def Mod4Mask : Nat := 64

def Mod5Mask : Nat := 128

/-- MODIFIERS table of xserver.py. -/
def MODIFIERS : List (String × Nat) :=
  [("ALT", Mod1Mask), ("CTRL", ControlMask), ("SHIFT", ShiftMask),
   ("MOD4", Mod4Mask)]

/-- IGNORED_MODIFIERS tuple of xserver.py, kept row for row as in the source
(seven rows; the all-zero combination is not among them). -/
def IGNORED_MODIFIERS : List Nat :=
  [ Mod2Mask ||| Mod3Mask ||| Mod5Mask,
    Mod2Mask ||| Mod3Mask ||| 0,
    Mod2Mask ||| 0 ||| Mod5Mask,
    Mod2Mask ||| 0 ||| 0,
    0 ||| Mod3Mask ||| Mod5Mask,
    0 ||| Mod3Mask ||| 0,
    0 ||| 0 ||| Mod5Mask ]

/-- translate of xserver.py, parameterised by the external KEY_CODES table. -/
def translate (KEY_CODES : List (String × Nat)) (s : String) :
    Except PyErr (Nat × Nat) :=
  translateHexFirst MODIFIERS KEY_CODES s

end Xserver

/-- Outcome of running a backend loop model on a finite trace. -/
inductive LoopOutcome where
  | returned
  | blockedInWait
  | raised (e : PyErr)
  | outOfTrace
deriving DecidableEq, Repr

namespace Xserver

/-- One X key-press event as seen by loop(): e.state is the modifier state,
e.detail the key code. -/
structure XEvent where
  state : Nat
  detail : Nat
deriving DecidableEq, Repr

/-- The grab_key calls issued by register of xserver.py for one hotkey:
keycode, mod = hk.code (note: this unpacking takes the FIRST component of the
translate result as keycode), then one grab per IGNORED_MODIFIERS entry with
modifier argument mod | m.  Each call is recorded as (keycode, modifiers). -/
def grab_key_calls (code : Nat × Nat) : List (Nat × Nat) :=
  let keycode := code.1
  let mod := code.2
  IGNORED_MODIFIERS.map (fun m => (keycode, mod ||| m))

/-- The ungrab_key calls issued by unregister of xserver.py: the same loop over
IGNORED_MODIFIERS as in register. -/
def ungrab_key_calls (code : Nat × Nat) : List (Nat × Nat) :=
  let keycode := code.1
  let mod := code.2
  IGNORED_MODIFIERS.map (fun m => (keycode, mod ||| m))

/-- The body of one loop() iteration of xserver.py after next_event returned:
mod = e.state; keycode = e.detail; mod = mod & IGNORED_MODIFIERS[0];
code = (mod, keycode); hk = HOTKEYS_BY_CODE[code]; hk._do_callback().
Returns the id of the handle whose callback is invoked, or the KeyError that
the direct dict indexing raises. -/
def loopDispatch (HOTKEYS_BY_CODE : List ((Nat × Nat) × Nat)) (e : XEvent) :
    Except PyErr Nat :=
  let mod := e.state
  let keycode := e.detail
  let mod2 := mod &&& IGNORED_MODIFIERS.getD 0 0
  let code := (mod2, keycode)
  match alookup HOTKEYS_BY_CODE code with
  | some hid => .ok hid
  | none => .error (.keyErrorCode code)

/-- loop() of xserver.py starting at the while-condition check, run on a finite
trace of pending events.  The stop flag is the state of _LoopEvt; with no
pending event the loop is blocked inside display.next_event(), which has no
timeout. -/
def loopFromCheck (stop : Bool) (tbl : List ((Nat × Nat) × Nat)) :
    List XEvent → LoopOutcome
  | [] => if stop then .returned else .blockedInWait
  | e :: rest =>
    if stop then .returned
    else
      match loopDispatch tbl e with
      | .error err => .raised err
      | .ok _ => loopFromCheck stop tbl rest

/-- loop() of xserver.py while blocked inside display.next_event(), with the
stop flag already set to the given value: the call returns only when an event
arrives, and only then is the flag checked again. -/
def loopFromWait (stop : Bool) (tbl : List ((Nat × Nat) × Nat)) :
    List XEvent → LoopOutcome
  | [] => .blockedInWait
  | e :: rest =>
    match loopDispatch tbl e with
    | .error err => .raised err
    | .ok _ => loopFromCheck stop tbl rest

end Xserver

namespace Posix

/-- Timeout argument of the select.select call in loop() of posix.py, in
milliseconds (the source passes 0.1 seconds). -/
def SELECT_TIMEOUT_MS : Nat := 100

/-- One raw input event as unpacked from an event device. -/
structure InputEvent where
  typ : Nat
  code : Nat
  value : Nat
deriving DecidableEq, Repr

/-- What one bounded select.select call yielded: nothing (timeout) or a batch
of readable events. -/
inductive SelectResult where
  | timedOut
  | ready (evs : List InputEvent)
deriving DecidableEq, Repr

/-- Body of the per-event processing in loop() of posix.py: modifier keys
update the live modifier mask (press sets, release clears), a non-modifier
press is looked up in HOTKEYS_BY_CODE with .get and dispatches if present.
vkMods is the VK_MODIFIERS dict (built from the external KEY_CODES).
Returns the new modifier mask and the dispatched handle id, if any. -/
def processEvent (vkMods : List (Nat × Nat)) (tbl : List ((Nat × Nat) × Nat))
    (mod : Nat) (ev : InputEvent) : Nat × Option Nat :=
  if ev.typ != 1 then (mod, none)
  else
    let m := (alookup vkMods ev.code).getD 0
    if m != 0 then
      (if ev.value != 0 then mod ||| m else mod - (mod &&& m), none)
    else if ev.value != 0 then
      (mod, alookup tbl (mod, ev.code))
    else (mod, none)

/-- Process the batch one select call returned. -/
def processSelect (vkMods : List (Nat × Nat)) (tbl : List ((Nat × Nat) × Nat))
    (mod : Nat) : SelectResult → Nat × List Nat
  | .timedOut => (mod, [])
  | .ready evs =>
    evs.foldl
      (fun acc ev =>
        let (m2, d) := processEvent vkMods tbl acc.1 ev
        (m2, acc.2 ++ d.toList))
      (mod, [])

/-- loop() of posix.py starting at the while-condition check, run on a finite
trace of select results.  Each iteration checks the stop flag first and then
performs one select call bounded by SELECT_TIMEOUT_MS. -/
def loopFromCheck (stop : Bool) (vkMods : List (Nat × Nat))
    (tbl : List ((Nat × Nat) × Nat)) (mod : Nat) :
    List SelectResult → LoopOutcome
  | [] => if stop then .returned else .outOfTrace
  | w :: ws =>
    if stop then .returned
    else
      let (mod2, _) := processSelect vkMods tbl mod w
      loopFromCheck stop vkMods tbl mod2 ws

/-- loop() of posix.py while blocked inside the current select call (which
returns within SELECT_TIMEOUT_MS), with the stop flag already set to the given
value: the in-flight select result is processed and then the flag is
checked. -/
def loopFromWait (stop : Bool) (vkMods : List (Nat × Nat))
    (tbl : List ((Nat × Nat) × Nat)) (mod : Nat) (w : SelectResult)
    (ws : List SelectResult) : LoopOutcome :=
  let (mod2, _) := processSelect vkMods tbl mod w
  loopFromCheck stop vkMods tbl mod2 ws

end Posix

namespace Windows

/-- Messages that GetMessageW can deliver to loop() of windows.py. -/
inductive WinMsg where
  | hotkeyMsg (wParam : Nat)
  | stopMsg
  | notifyMsg
  | otherMsg
deriving DecidableEq, Repr

/-- loop() of windows.py run on a finite queue of messages; HOTKEYS_BY_ID maps
the native small-integer ids to handle ids.  An empty queue means GetMessageW
is blocked until a message arrives.  WM_HOTKEY looks the handle up by
msg.wParam with direct indexing (KeyError possible), invokes its callback with
exceptions isolated, and continues; WM_STOP returns; WM_NOTIFY executes one
marshaled call and continues; anything else trips the assert. -/
def loopRun (HOTKEYS_BY_ID : List (Nat × Nat)) : List WinMsg → LoopOutcome
  | [] => .blockedInWait
  | m :: rest =>
    match m with
    | .stopMsg => .returned
    | .hotkeyMsg w =>
      match alookup HOTKEYS_BY_ID w with
      | some _ => loopRun HOTKEYS_BY_ID rest
      | none => .raised (.keyErrorId w)
    | .notifyMsg => loopRun HOTKEYS_BY_ID rest
    | .otherMsg => .raised .assertionError

/-- The WM_NOTIFY branch of loop(): the marshaled function is applied and its
result or exception is stored in the completion slot, so the slot holds
exactly the outcome of the direct call. -/
def loopHandleNotify {α β : Type} (f : α → Except PyErr β) (x : α) :
    Except PyErr β :=
  f x

/-- do_in_hk_thread of windows.py.  worker is HK_WORKER_THREAD (None when the
loop is not running), current the calling thread.  postOk models the success
of PostThreadMessageW, completed whether the completion event was signalled
within the 0.5 s timeout.  On a completed marshaled call the wrapper re-raises
the stored exception or returns the stored result. -/
def do_in_hk_thread {α β : Type} (worker : Option Nat) (current : Nat)
    (postOk completed : Bool) (f : α → Except PyErr β) (x : α) :
    Except PyErr β :=
  match worker with
  | none => .error (.implError "No Hotkey Worker Thread")
  | some wt =>
    if current == wt then f x
    else if !postOk then .error (.implError "PostThreadMessageW failed")
    else if !completed then .error (.implError "Hotkey Worker not Responding")
    else
      match loopHandleNotify f x with
      | .error ex => .error ex
      | .ok r => .ok r

end Windows

namespace HK

/-
Model of the HotKey frontend in hotkey.py.  HOTKEYS is the process-wide
code-to-handle mapping (handles are identified by a Nat id); activeIds is the
set of handle ids whose active flag is True.  The backend module impl is
abstracted as state-passing functions on a backend state of type B; the whole
lock-guarded body of each method is one transition, which is exactly what the
single _Lock makes atomic in the source.  Each operation returns the new state
together with the normal or exceptional outcome (a Python exception unwinds
without undoing prior mutations, so the state is always returned).
-/

/-- Process-wide state: the HOTKEYS mapping plus the active flag of every
handle, and the backend module state. -/
structure Sys (B : Type) where
  HOTKEYS : List ((Nat × Nat) × Nat)
  activeIds : List Nat
  backend : B
deriving DecidableEq, Repr

/-- Reading self.active of the handle with the given id. -/
def isActive {B : Type} (s : Sys B) (hid : Nat) : Bool :=
  decide (hid ∈ s.activeIds)

/-- HotKey.__init__: translate already evaluated (its outcome is passed in);
then, under the lock: if code in HOTKEYS raise HotKeyError("Duplicate
Hotkey"), else HOTKEYS[code] = self.  The new handle starts with
active=False (its fresh id is not in activeIds). -/
def init {B : Type} (s : Sys B) (translated : Except PyErr (Nat × Nat))
    (newId : Nat) : Sys B × Except PyErr (Nat × Nat) :=
  match translated with
  | .error e => (s, .error e)
  | .ok code =>
    if (alookup s.HOTKEYS code).isSome then
      (s, .error (.hotKeyError "Duplicate Hotkey"))
    else
      ({ s with HOTKEYS := (code, newId) :: s.HOTKEYS }, .ok code)

/-- HotKey.register: under the lock, if not active call impl.register and set
active=True, else raise HotKeyError("Already active").  implReg is the
backend register call; if it raises, active stays False. -/
def register {B : Type} (implReg : B → B × Except PyErr Unit) (s : Sys B)
    (hid : Nat) : Sys B × Except PyErr Unit :=
  if isActive s hid then (s, .error (.hotKeyError "Already active"))
  else
    let (b2, r) := implReg s.backend
    match r with
    | .error e => ({ s with backend := b2 }, .error e)
    | .ok _ => ({ s with backend := b2, activeIds := hid :: s.activeIds }, .ok ())

/-- HotKey.unregister: under the lock, if active call impl.unregister and set
active=False, else raise HotKeyError("Already deactivated"). -/
def unregister {B : Type} (implUnreg : B → B × Except PyErr Unit) (s : Sys B)
    (hid : Nat) : Sys B × Except PyErr Unit :=
  if isActive s hid then
    let (b2, r) := implUnreg s.backend
    match r with
    | .error e => ({ s with backend := b2 }, .error e)
    | .ok _ =>
      ({ s with backend := b2, activeIds := s.activeIds.filter (fun i => i != hid) },
       .ok ())
  else (s, .error (.hotKeyError "Already deactivated"))

/-- del HOTKEYS[code] with a swallowed KeyError: remove the entry if present. -/
def removeCode {B : Type} (s : Sys B) (code : Nat × Nat) : Sys B :=
  { s with HOTKEYS := s.HOTKEYS.filter (fun p => p.1 != code) }

/-- HotKey.free: try self.unregister() swallowing HotKeyError (any other
exception, e.g. a backend error, propagates before the mapping is touched),
then delete the code from HOTKEYS swallowing KeyError. -/
def free {B : Type} (implUnreg : B → B × Except PyErr Unit) (s : Sys B)
    (hid : Nat) (code : Nat × Nat) : Sys B × Except PyErr Unit :=
  let (s2, r) := unregister implUnreg s hid
  match r with
  | .ok _ => (removeCode s2 code, .ok ())
  | .error (.hotKeyError _) => (removeCode s2 code, .ok ())
  | .error e => (s2, .error e)

/-- The HOTKEYS mapping has pairwise distinct codes. -/
def keysNodup {B : Type} (s : Sys B) : Prop :=
  (s.HOTKEYS.map Prod.fst).Nodup

/-- A backend register/unregister call that succeeds without touching any
modelled state (used for concrete traces). -/
def implOk : Unit → Unit × Except PyErr Unit :=
  fun b => (b, .ok ())

/-- Concrete trace for the freed-handle scenario: empty initial state. -/
def sEmpty : Sys Unit := ⟨[], [], ()⟩

/-- After constructing a handle (id 1) for code (5, 70). -/
def sInit : Sys Unit := (init sEmpty (.ok (5, 70)) 1).1

/-- After registering it. -/
def sReg : Sys Unit := (register implOk sInit 1).1

/-- After freeing it. -/
def sFreed : Sys Unit := (free implOk sReg 1 (5, 70)).1

end HK

/-- Decidable equality for Except outcomes, used to evaluate concrete runs. -/
def exceptDecEq {ε α : Type} [DecidableEq ε] [DecidableEq α] :
    DecidableEq (Except ε α) := fun a b =>
  match a, b with
  | .error e, .error f =>
    if h : e = f then isTrue (h ▸ rfl) else isFalse (fun hc => h (Except.error.inj hc))
  | .error _, .ok _ => isFalse (fun hc => Except.noConfusion hc)
  | .ok _, .error _ => isFalse (fun hc => Except.noConfusion hc)
  | .ok x, .ok y =>
    if h : x = y then isTrue (h ▸ rfl) else isFalse (fun hc => h (Except.ok.inj hc))

instance {ε α : Type} [DecidableEq ε] [DecidableEq α] : DecidableEq (Except ε α) :=
  exceptDecEq


/-
Helper lemmas about association-list lookups and key sets.
-/

theorem alookup_none_not_mem_keys {α β : Type} [BEq α] [LawfulBEq α] :
    ∀ (l : List (α × β)) (k : α), alookup l k = none → k ∉ l.map Prod.fst := by
  intro l k
  induction l with
  | nil => intro _ hm; simp at hm
  | cons p rest ih =>
    intro h hm
    by_cases hpk : p.1 == k
    · simp [alookup, hpk] at h
    · simp only [alookup, hpk] at h
      simp only [Bool.false_eq_true, if_false] at h
      rcases List.mem_cons.mp hm with heq | hmem
      · exact absurd (beq_iff_eq.mpr heq.symm) (by simpa using hpk)
      · exact ih h hmem

theorem keys_nodup_inj {α β : Type} :
    ∀ (l : List (α × β)), (l.map Prod.fst).Nodup →
      ∀ (a : α) (b c : β), (a, b) ∈ l → (a, c) ∈ l → b = c := by
  intro l
  induction l with
  | nil => intro _ a b c hb; simp at hb
  | cons p rest ih =>
    intro hnd a b c hb hc
    simp only [List.map_cons, List.nodup_cons] at hnd
    obtain ⟨hnotin, hrest⟩ := hnd
    rcases List.mem_cons.mp hb with hb1 | hb2 <;>
      rcases List.mem_cons.mp hc with hc1 | hc2
    · rw [← hb1] at hc1; exact congrArg Prod.snd hc1.symm
    · exfalso; apply hnotin
      have : a = p.1 := by rw [← hb1]
      exact this ▸ List.mem_map_of_mem Prod.fst hc2
    · exfalso; apply hnotin
      have : a = p.1 := by rw [← hc1]
      exact this ▸ List.mem_map_of_mem Prod.fst hb2
    · exact ih hrest a b c hb2 hc2

theorem filter_keys_nodup {α β : Type} (l : List (α × β)) (p : α × β → Bool)
    (h : (l.map Prod.fst).Nodup) : ((l.filter p).map Prod.fst).Nodup :=
  List.Nodup.sublist (List.Sublist.map Prod.fst (List.filter_sublist l)) h

theorem alookup_none_filter_id {α β : Type} [BEq α] [LawfulBEq α] :
    ∀ (l : List (α × β)) (k : α), alookup l k = none →
      l.filter (fun q => q.1 != k) = l := by
  intro l k
  induction l with
  | nil => intro _; rfl
  | cons p rest ih =>
    intro h
    by_cases hpk : p.1 == k
    · simp [alookup, hpk] at h
    · simp only [alookup, hpk] at h
      simp only [Bool.false_eq_true, if_false] at h
      have : (p.1 != k) = true := by simp [bne]; simpa using hpk
      simp [List.filter, this, ih h]

theorem not_mem_filter_bne_self (l : List Nat) (h : Nat) :
    h ∉ l.filter (fun i => i != h) := by
  intro hm
  rcases List.mem_filter.mp hm with ⟨_, hb⟩
  simp at hb

theorem register_fst_hotkeys {B : Type} (f : B → B × Except PyErr Unit)
    (s : HK.Sys B) (h : Nat) : (HK.register f s h).1.HOTKEYS = s.HOTKEYS := by
  unfold HK.register
  cases hr : f s.backend with
  | mk b2 r => by_cases ha : HK.isActive s h <;> cases r <;> simp [ha]

theorem unregister_fst_hotkeys {B : Type} (f : B → B × Except PyErr Unit)
    (s : HK.Sys B) (h : Nat) : (HK.unregister f s h).1.HOTKEYS = s.HOTKEYS := by
  unfold HK.unregister
  cases hr : f s.backend with
  | mk b2 r => by_cases ha : HK.isActive s h <;> cases r <;> simp [ha]

theorem free_fst_hotkeys {B : Type} (f : B → B × Except PyErr Unit)
    (s : HK.Sys B) (h : Nat) (c : Nat × Nat) :
    (HK.free f s h c).1.HOTKEYS = s.HOTKEYS.filter (fun p => p.1 != c)
    ∨ (HK.free f s h c).1.HOTKEYS = s.HOTKEYS := by
  unfold HK.free
  cases hu : HK.unregister f s h with
  | mk s2 r =>
    have h2 : s2.HOTKEYS = s.HOTKEYS := by
      have h3 := unregister_fst_hotkeys f s h
      rw [hu] at h3
      exact h3
    cases r with
    | ok u => left; simp [HK.removeCode, h2]
    | error e =>
      cases e with
      | hotKeyError m => left; simp [HK.removeCode, h2]
      | keyError k => right; exact h2
      | keyErrorCode cc => right; exact h2
      | keyErrorId n => right; exact h2
      | valueError v => right; exact h2
      | implError m => right; exact h2
      | assertionError => right; exact h2

/-
Claim theorems.
-/

/-- Claim C2 (code bug): with "Ctrl+Shift+F6" registered under its translated
code (5, 70), a key-down event with modifier state Ctrl|Shift = 5 and detail
70 does NOT invoke the callback: loop() masks the state with
IGNORED_MODIFIERS[0], keeping only the ignorable lock bits, so the lookup key
becomes (0, 70), the dict indexing raises KeyError and the loop aborts.  The
same happens with NumLock (Mod2) additionally set.  This theorem evaluates
the translated code at the failing input. -/
theorem c2_xserver_dispatch_never_fires :
    Xserver.translate [("F6", 70)] "Ctrl+Shift+F6" = .ok (5, 70)
  ∧ Xserver.loopDispatch [((5, 70), 1)] ⟨5, 70⟩ = .error (.keyErrorCode (0, 70))
  ∧ Xserver.loopDispatch [((5, 70), 1)] ⟨5 ||| 16, 70⟩ =
      .error (.keyErrorCode (16, 70))
  ∧ Xserver.loopFromWait false [((5, 70), 1)] [⟨5, 70⟩] =
      .raised (.keyErrorCode (0, 70)) := by
  refine ⟨rfl, rfl, rfl, rfl⟩

/-- Claim C6 (code bug): IGNORED_MODIFIERS of xserver.py enumerates only 7 of
the 8 subsets of the three ignorable modifier bits (the all-zero row is
missing), so register issues 7 grab_key calls, never the bare requested
combination, and unregister issues the identical 7 ungrab_key calls. -/
theorem c6_grab_fanout_misses_empty_subset :
    Xserver.IGNORED_MODIFIERS.length = 7
  ∧ (0 : Nat) ∉ Xserver.IGNORED_MODIFIERS
  ∧ (Xserver.grab_key_calls (5, 70)).length = 7
  ∧ (5, 70) ∉ Xserver.grab_key_calls (5, 70)
  ∧ Xserver.ungrab_key_calls (5, 70) = Xserver.grab_key_calls (5, 70) := by
  refine ⟨rfl, by decide, rfl, by decide, rfl⟩

/-- Claim C8 counterexample: in the X11 backend, with the stop flag set while
loop() is blocked inside display.next_event() and no native event pending, the
loop does not return: next_event has no timeout and stop() only sets a flag
that is examined after it returns. -/
theorem c8_counterexample :
    Xserver.loopFromWait true [] [] ≠ LoopOutcome.returned := by decide

/-- Claim C8 as amended: the raw-input backend observes a stop signalled
during a blocked loop() within the current select call, whose timeout is
100 ms (≤ 150 ms); the Win32 backend is woken immediately by the posted
WM_STOP thread message; the X11 backend observes the stop flag only once the
next native event arrives. -/
theorem c8_stop_wakeup_per_backend :
    (∀ (vkMods : List (Nat × Nat)) (tbl : List ((Nat × Nat) × Nat)) (mod : Nat)
        (w : Posix.SelectResult) (ws : List Posix.SelectResult),
      Posix.loopFromWait true vkMods tbl mod w ws = LoopOutcome.returned)
  ∧ Posix.SELECT_TIMEOUT_MS ≤ 150
  ∧ (∀ byId : List (Nat × Nat),
      Windows.loopRun byId [Windows.WinMsg.stopMsg] = LoopOutcome.returned)
  ∧ (∀ tbl : List ((Nat × Nat) × Nat),
      Xserver.loopFromWait true tbl [] = LoopOutcome.blockedInWait)
  ∧ (∀ (tbl : List ((Nat × Nat) × Nat)) (e : Xserver.XEvent)
        (evs : List Xserver.XEvent) (hid : Nat),
      Xserver.loopDispatch tbl e = .ok hid →
      Xserver.loopFromWait true tbl (e :: evs) = LoopOutcome.returned) := by
  refine ⟨?_, by decide, ?_, ?_, ?_⟩
  · intro vkMods tbl mod w ws
    unfold Posix.loopFromWait
    cases ws <;> simp [Posix.loopFromCheck]
  · intro byId; rfl
  · intro tbl; rfl
  · intro tbl e evs hid h
    simp only [Xserver.loopFromWait]
    rw [h]
    cases evs <;> simp [Xserver.loopFromCheck]

/-- Claim C8 witness: a concrete X11 run where the event after the stop signal
lets the blocked loop return. -/
theorem c8_stop_wakeup_witness :
    Xserver.loopFromWait true [((0, 70), 1)] [⟨0, 70⟩] = LoopOutcome.returned :=
  c8_stop_wakeup_per_backend.2.2.2.2 [((0, 70), 1)] ⟨0, 70⟩ [] 1 (by decide)

/-- Claim C7: a marshaled backend operation behaves like the direct call.
On the owning thread do_in_hk_thread runs the operation synchronously in
place; from another thread, once the completion event is signalled in time the
wrapper returns the stored result or re-raises the stored exception, which is
exactly the outcome of the direct call; if the completion signal does not
arrive within the bounded timeout the worker-not-responding error is
raised. -/
theorem c7_marshal_refines_direct (wt ct : Nat) (f : Nat → Except PyErr Nat)
    (x : Nat) :
    (∀ postOk completed : Bool, ct = wt →
      Windows.do_in_hk_thread (some wt) ct postOk completed f x = f x)
  ∧ Windows.do_in_hk_thread (some wt) ct true true f x = f x
  ∧ (ct ≠ wt →
      Windows.do_in_hk_thread (some wt) ct true false f x =
        .error (.implError "Hotkey Worker not Responding")) := by
  refine ⟨?_, ?_, ?_⟩
  · intro postOk completed hct
    subst hct
    simp [Windows.do_in_hk_thread]
  · by_cases hct : ct = wt
    · subst hct; simp [Windows.do_in_hk_thread]
    · have : (ct == wt) = false := by simpa using hct
      simp [Windows.do_in_hk_thread, this, Windows.loopHandleNotify]
      cases f x <;> rfl
  · intro hct
    have : (ct == wt) = false := by simpa using hct
    simp [Windows.do_in_hk_thread, this]

/-- Claim C7 witness: concrete marshaled calls from a non-owning thread, one
completed (same outcome as the direct call) and one timed out. -/
theorem c7_marshal_witness :
    Windows.do_in_hk_thread (some 1) 2 true true (fun n => .ok (n + 1)) 41 =
      (.ok 42 : Except PyErr Nat)
  ∧ Windows.do_in_hk_thread (some 1) 2 true false
      (fun n => (.ok (n + 1) : Except PyErr Nat)) 41 =
      .error (.implError "Hotkey Worker not Responding") :=
  ⟨(c7_marshal_refines_direct 1 2 (fun n => .ok (n + 1)) 41).2.1,
   (c7_marshal_refines_direct 1 2 (fun n => .ok (n + 1)) 41).2.2 (by decide)⟩

/-- Claim C1: the process-wide mapping is the uniqueness gate.  Constructing a
handle whose combo translates to a code already present in HOTKEYS raises the
duplicate error even when the existing entry is inactive (the check never
consults the active flag); a successful construction proves the code was
absent and inserts it; every operation preserves distinctness of the mapped
codes; and under that invariant two distinct mapped handles have different
codes.  The check-and-insert is a single transition of the model, exactly the
body of the one _Lock block. -/
theorem c1_duplicate_gate_and_uniqueness :
    (∀ (B : Type) (s : HK.Sys B) (code : Nat × Nat) (oldId newId : Nat),
      alookup s.HOTKEYS code = some oldId →
      HK.isActive s oldId = false →
      HK.init s (.ok code) newId = (s, .error (.hotKeyError "Duplicate Hotkey")))
  ∧ (∀ (B : Type) (s s2 : HK.Sys B) (code c2 : Nat × Nat) (newId : Nat),
      HK.init s (.ok code) newId = (s2, .ok c2) →
      alookup s.HOTKEYS code = none ∧ s2.HOTKEYS = (code, newId) :: s.HOTKEYS)
  ∧ (∀ (B : Type) (s : HK.Sys B), HK.keysNodup s →
      (∀ (t : Except PyErr (Nat × Nat)) (n : Nat), HK.keysNodup (HK.init s t n).1)
      ∧ (∀ (f : B → B × Except PyErr Unit) (h : Nat), HK.keysNodup (HK.register f s h).1)
      ∧ (∀ (f : B → B × Except PyErr Unit) (h : Nat), HK.keysNodup (HK.unregister f s h).1)
      ∧ (∀ (f : B → B × Except PyErr Unit) (h : Nat) (c : Nat × Nat),
          HK.keysNodup (HK.free f s h c).1))
  ∧ (∀ (B : Type) (s : HK.Sys B) (ca cb : Nat × Nat) (ia ib : Nat),
      HK.keysNodup s → (ca, ia) ∈ s.HOTKEYS → (cb, ib) ∈ s.HOTKEYS →
      ia ≠ ib → ca ≠ cb) := by
  refine ⟨?_, ?_, ?_, ?_⟩
  · intro B s code oldId newId hmap _
    simp [HK.init, hmap]
  · intro B s s2 code c2 newId h
    cases hl : alookup s.HOTKEYS code with
    | some v => simp [HK.init, hl] at h
    | none =>
      simp only [HK.init, hl, Option.isSome_none, Bool.false_eq_true, if_false] at h
      have hs : ({ s with HOTKEYS := (code, newId) :: s.HOTKEYS } : HK.Sys B) = s2 :=
        congrArg Prod.fst h
      exact ⟨rfl, by rw [← hs]⟩
  · intro B s hnd
    refine ⟨?_, ?_, ?_, ?_⟩
    · intro t n
      cases t with
      | error e => exact hnd
      | ok code =>
        cases hl : alookup s.HOTKEYS code with
        | some v => simpa [HK.init, hl] using hnd
        | none =>
          simp only [HK.init, hl, Option.isSome_none, Bool.false_eq_true, if_false]
          simp only [HK.keysNodup, List.map_cons, List.nodup_cons]
          exact ⟨alookup_none_not_mem_keys s.HOTKEYS code hl, hnd⟩
    · intro f h
      simp only [HK.keysNodup, register_fst_hotkeys f s h]
      exact hnd
    · intro f h
      simp only [HK.keysNodup, unregister_fst_hotkeys f s h]
      exact hnd
    · intro f h c
      rcases free_fst_hotkeys f s h c with hf | hf
      · simp only [HK.keysNodup, hf]
        exact filter_keys_nodup s.HOTKEYS _ hnd
      · simp only [HK.keysNodup, hf]
        exact hnd
  · intro B s ca cb ia ib hnd hma hmb hne hcc
    subst hcc
    exact hne (keys_nodup_inj s.HOTKEYS hnd ca ia ib hma hmb)

/-- Claim C1 witness: with code (5, 70) mapped to the inactive handle 1, a
second construction for the same code fails with the duplicate error. -/
theorem c1_duplicate_gate_witness :
    HK.init HK.sInit (.ok (5, 70)) 2 =
      (HK.sInit, .error (.hotKeyError "Duplicate Hotkey")) :=
  c1_duplicate_gate_and_uniqueness.1 Unit HK.sInit (5, 70) 1 2 (by decide) (by decide)

/-- Claim C5: when the backend register call raises, HotKey.register
propagates the error while the handle stays inactive and its entry in the
process-wide mapping remains retrievable. -/
theorem c5_register_failure_keeps_mapping {B : Type}
    (implReg : B → B × Except PyErr Unit) (s : HK.Sys B) (hid : Nat)
    (code : Nat × Nat) (mappedId : Nat) (b2 : B) (e : PyErr)
    (hin : HK.isActive s hid = false)
    (himpl : implReg s.backend = (b2, .error e))
    (hmap : alookup s.HOTKEYS code = some mappedId) :
    HK.register implReg s hid = ({ s with backend := b2 }, .error e)
    ∧ HK.isActive (HK.register implReg s hid).1 hid = false
    ∧ alookup (HK.register implReg s hid).1.HOTKEYS code = some mappedId := by
  have h1 : HK.register implReg s hid = ({ s with backend := b2 }, .error e) := by
    unfold HK.register
    rw [hin, himpl]
    simp
  refine ⟨h1, ?_, ?_⟩
  · rw [h1]; exact hin
  · rw [h1]; exact hmap

/-- Claim C5 witness: a permission-denied backend failure on the concrete
one-handle state leaves the mapping entry retrievable and the flag false. -/
theorem c5_register_failure_witness :
    HK.register (fun b => (b, .error (.implError "permission denied"))) HK.sInit 1 =
      (HK.sInit, .error (.implError "permission denied"))
    ∧ HK.isActive
        (HK.register (fun b => (b, .error (.implError "permission denied"))) HK.sInit 1).1
        1 = false
    ∧ alookup
        (HK.register (fun b => (b, .error (.implError "permission denied"))) HK.sInit 1).1.HOTKEYS
        (5, 70) = some 1 :=
  c5_register_failure_keeps_mapping
    (fun b => (b, .error (.implError "permission denied"))) HK.sInit 1 (5, 70) 1 ()
    (.implError "permission denied") (by decide) (by decide) (by decide)

/-- Claim C9: register on an active handle raises the already-active error
with the whole state (mapping, backend and flag) unchanged; unregister on an
inactive handle raises the not-active error with the state unchanged; a
successful unregister clears the active flag. -/
theorem c9_active_flag_state_machine :
    (∀ (B : Type) (implReg : B → B × Except PyErr Unit) (s : HK.Sys B) (hid : Nat),
      HK.isActive s hid = true →
      HK.register implReg s hid = (s, .error (.hotKeyError "Already active")))
  ∧ (∀ (B : Type) (implUnreg : B → B × Except PyErr Unit) (s : HK.Sys B) (hid : Nat),
      HK.isActive s hid = false →
      HK.unregister implUnreg s hid = (s, .error (.hotKeyError "Already deactivated")))
  ∧ (∀ (B : Type) (implUnreg : B → B × Except PyErr Unit) (s : HK.Sys B)
        (hid : Nat) (b2 : B),
      HK.isActive s hid = true → implUnreg s.backend = (b2, .ok ()) →
      (HK.unregister implUnreg s hid).2 = .ok ()
      ∧ HK.isActive (HK.unregister implUnreg s hid).1 hid = false) := by
  refine ⟨?_, ?_, ?_⟩
  · intro B implReg s hid ha
    unfold HK.register
    rw [ha]
    simp
  · intro B implUnreg s hid ha
    unfold HK.unregister
    rw [ha]
    simp
  · intro B implUnreg s hid b2 ha himpl
    have h1 : (HK.unregister implUnreg s hid).2 = Except.ok ()
        ∧ (HK.unregister implUnreg s hid).1.activeIds
            = s.activeIds.filter (fun i => i != hid) := by
      unfold HK.unregister
      rw [himpl]
      simp [ha]
    refine ⟨h1.1, ?_⟩
    simp only [HK.isActive, h1.2, decide_eq_false_iff_not]
    exact not_mem_filter_bne_self s.activeIds hid

/-- Claim C9 witness: on the concrete one-handle states, register on the
active handle and unregister on the inactive handle raise, and a successful
unregister clears the flag. -/
theorem c9_active_flag_witness :
    HK.register HK.implOk HK.sReg 1 = (HK.sReg, .error (.hotKeyError "Already active"))
    ∧ HK.unregister HK.implOk HK.sInit 1 =
        (HK.sInit, .error (.hotKeyError "Already deactivated"))
    ∧ (HK.unregister HK.implOk HK.sReg 1).2 = .ok ()
    ∧ HK.isActive (HK.unregister HK.implOk HK.sReg 1).1 1 = false :=
  ⟨c9_active_flag_state_machine.1 Unit HK.implOk HK.sReg 1 (by decide),
   c9_active_flag_state_machine.2.1 Unit HK.implOk HK.sInit 1 (by decide),
   (c9_active_flag_state_machine.2.2 Unit HK.implOk HK.sReg 1 () (by decide) (by decide)).1,
   (c9_active_flag_state_machine.2.2 Unit HK.implOk HK.sReg 1 () (by decide) (by decide)).2⟩

/-- Claim C4 counterexample: after the concrete handle 1 is constructed,
registered and then freed, calling register() on it again SUCCEEDS and makes
it active: no FreedHandleError is raised (HotKey carries no freed flag at
all), refuting that free() is terminal. -/
theorem c4_counterexample :
    (HK.register HK.implOk HK.sFreed 1).2 = .ok ()
    ∧ HK.isActive (HK.register HK.implOk HK.sFreed 1).1 1 = true := by decide

/-- Claim C4 as amended: free() is a best-effort unregister (swallowing the
not-active HotKeyError; only a backend error propagates) followed by removal
of the code from the process-wide mapping — but it is not terminal.  On the
freed handle register() succeeds again (without re-entering the mapping),
unregister() raises the not-active error, and a second free() is a no-op. -/
theorem c4_free_removes_but_not_terminal :
    (∀ (B : Type) (implU : B → B × Except PyErr Unit) (s : HK.Sys B)
        (hid : Nat) (code : Nat × Nat),
      HK.isActive s hid = false →
      HK.free implU s hid code = (HK.removeCode s code, .ok ()))
  ∧ (∀ (B : Type) (implU : B → B × Except PyErr Unit) (s : HK.Sys B)
        (hid : Nat) (code : Nat × Nat) (b2 : B),
      HK.isActive s hid = true → implU s.backend = (b2, .ok ()) →
      (HK.free implU s hid code).2 = .ok ()
      ∧ (HK.free implU s hid code).1.HOTKEYS
          = s.HOTKEYS.filter (fun p => p.1 != code)
      ∧ HK.isActive (HK.free implU s hid code).1 hid = false)
  ∧ (∀ (B : Type) (implR : B → B × Except PyErr Unit) (s : HK.Sys B)
        (hid : Nat) (b2 : B),
      HK.isActive s hid = false → implR s.backend = (b2, .ok ()) →
      (HK.register implR s hid).2 = .ok ()
      ∧ (HK.register implR s hid).1.HOTKEYS = s.HOTKEYS
      ∧ HK.isActive (HK.register implR s hid).1 hid = true)
  ∧ (∀ (B : Type) (implU : B → B × Except PyErr Unit) (s : HK.Sys B) (hid : Nat),
      HK.isActive s hid = false →
      HK.unregister implU s hid = (s, .error (.hotKeyError "Already deactivated")))
  ∧ (∀ (B : Type) (implU : B → B × Except PyErr Unit) (s : HK.Sys B)
        (hid : Nat) (code : Nat × Nat),
      HK.isActive s hid = false → alookup s.HOTKEYS code = none →
      HK.free implU s hid code = (s, .ok ())) := by
  have hUnregInactive : ∀ (B : Type) (implU : B → B × Except PyErr Unit)
      (s : HK.Sys B) (hid : Nat), HK.isActive s hid = false →
      HK.unregister implU s hid = (s, .error (.hotKeyError "Already deactivated")) := by
    intro B implU s hid ha
    unfold HK.unregister
    rw [ha]
    simp
  have hFreeInactive : ∀ (B : Type) (implU : B → B × Except PyErr Unit)
      (s : HK.Sys B) (hid : Nat) (code : Nat × Nat), HK.isActive s hid = false →
      HK.free implU s hid code = (HK.removeCode s code, .ok ()) := by
    intro B implU s hid code ha
    unfold HK.free
    rw [hUnregInactive B implU s hid ha]
  refine ⟨hFreeInactive, ?_, ?_, hUnregInactive, ?_⟩
  · intro B implU s hid code b2 ha himpl
    have h1 : (HK.unregister implU s hid).2 = Except.ok ()
        ∧ (HK.unregister implU s hid).1.HOTKEYS = s.HOTKEYS
        ∧ (HK.unregister implU s hid).1.activeIds
            = s.activeIds.filter (fun i => i != hid) := by
      unfold HK.unregister
      rw [himpl]
      simp [ha]
    have h2 : HK.free implU s hid code
        = (HK.removeCode (HK.unregister implU s hid).1 code, .ok ()) := by
      unfold HK.free
      cases hu : HK.unregister implU s hid with
      | mk s2 r =>
        have hr2 : r = Except.ok () := by
          have := h1.1
          rw [hu] at this
          exact this
        rw [hr2]
    rw [h2]
    refine ⟨rfl, ?_, ?_⟩
    · simp only [HK.removeCode]
      rw [h1.2.1]
    · simp only [HK.removeCode, HK.isActive, h1.2.2, decide_eq_false_iff_not]
      exact not_mem_filter_bne_self s.activeIds hid
  · intro B implR s hid b2 ha himpl
    have h1 : (HK.register implR s hid).2 = Except.ok ()
        ∧ (HK.register implR s hid).1.HOTKEYS = s.HOTKEYS
        ∧ (HK.register implR s hid).1.activeIds = hid :: s.activeIds := by
      unfold HK.register
      rw [himpl]
      simp [ha]
    refine ⟨h1.1, h1.2.1, ?_⟩
    simp [HK.isActive, h1.2.2]
  · intro B implU s hid code ha hcode
    rw [hFreeInactive B implU s hid code ha]
    have : HK.removeCode s code = s := by
      simp only [HK.removeCode]
      rw [alookup_none_filter_id s.HOTKEYS code hcode]
    rw [this]

/-- Claim C4 witness: on the concrete freed state, a second free() is a no-op
and register() succeeds again without re-entering the mapping. -/
theorem c4_free_witness :
    HK.free HK.implOk HK.sFreed 1 (5, 70) = (HK.sFreed, .ok ())
    ∧ (HK.register HK.implOk HK.sFreed 1).1.HOTKEYS = HK.sFreed.HOTKEYS :=
  ⟨c4_free_removes_but_not_terminal.2.2.2.2 Unit HK.implOk HK.sFreed 1 (5, 70)
     (by decide) (by decide),
   (c4_free_removes_but_not_terminal.2.2.1 Unit HK.implOk HK.sFreed 1 ()
     (by decide) rfl).2.1⟩

/-- Claim C3: synonym modifier spellings translate identically.  Concrete
synonym pairs from each backend table (over an arbitrary key table) yield
equal HotKeyCode values, and in general the modifier loop depends only on the
looked-up bit of each token, so any two modifier spellings whose upper-cased
names map to the same table entries produce the same mask on every valid
combo. -/
theorem c3_synonym_spellings (kt : List (String × Nat)) :
    Windows.translate kt "Ctrl+F6" = Windows.translate kt "Control+F6"
  ∧ Windows.translate kt "Alt+F6" = Windows.translate kt "Menu+F6"
  ∧ Windows.translate kt "Win+F6" = Windows.translate kt "Mod4+F6"
  ∧ Posix.translate kt "Ctrl+F6" = Posix.translate kt "Control+F6"
  ∧ Posix.translate kt "Win+F6" = Posix.translate kt "Meta+F6"
  ∧ Posix.translate kt "Win+F6" = Posix.translate kt "Mod4+F6"
  ∧ Posix.translate kt "Alt+F6" = Posix.translate kt "LeftAlt+F6"
  ∧ Posix.translate kt "Ctrl+Shift+F6" = Posix.translate kt "Control+Shift+F6"
  ∧ Xserver.translate kt "Ctrl+F6" = Xserver.translate kt "CTRL+F6"
  ∧ (∀ (tbl : List (String × Nat)) (acc : Nat) (ms1 ms2 : List String),
      ms1.map (fun m => alookup tbl (pyUpper m))
        = ms2.map (fun m => alookup tbl (pyUpper m)) →
      (∀ m ∈ ms1, (alookup tbl (pyUpper m)).isSome = true) →
      resolveModsAux tbl acc ms1 = resolveModsAux tbl acc ms2) := by
  refine ⟨rfl, rfl, rfl, rfl, rfl, rfl, rfl, rfl, rfl, ?_⟩
  intro tbl acc ms1
  induction ms1 generalizing acc with
  | nil =>
    intro ms2 hmap _
    cases ms2 with
    | nil => rfl
    | cons b bs => simp at hmap
  | cons a as ih =>
    intro ms2 hmap hsome
    cases ms2 with
    | nil => simp at hmap
    | cons b bs =>
      simp only [List.map_cons, List.cons.injEq] at hmap
      obtain ⟨h1, h2⟩ := hmap
      have ha := hsome a (List.mem_cons_self a as)
      cases hv : alookup tbl (pyUpper a) with
      | none => rw [hv] at ha; simp at ha
      | some v =>
        rw [hv] at h1
        simp only [resolveModsAux, hv, ← h1]
        exact ih (acc ||| v) bs h2 (fun m hm => hsome m (List.mem_cons_of_mem a hm))

/-- Claim C3 witness: with a concrete key table, the Ctrl and Control
spellings of the same combo translate to the same HotKeyCode, and the
modifier loop yields the same mask for the two spellings. -/
theorem c3_synonym_witness :
    Windows.translate [("F6", 70)] "Ctrl+F6" = Windows.translate [("F6", 70)] "Control+F6"
    ∧ resolveModsAux Windows.MODIFIERS 0 ["Ctrl"]
        = resolveModsAux Windows.MODIFIERS 0 ["Control"] :=
  ⟨(c3_synonym_spellings [("F6", 70)]).1,
   (c3_synonym_spellings [("F6", 70)]).2.2.2.2.2.2.2.2.2 Windows.MODIFIERS 0
     ["Ctrl"] ["Control"] (by decide) (by decide)⟩

/-- Claim C10: on every backend the modifier tokens are upper-cased before the
table lookup (the loop result depends only on the upper-cased spellings),
while the final key token is looked up case-sensitively: a token absent from
the key table that matches an entry up to letter case only and does not start
with 0x makes translate fail with the key-lookup KeyError naming that token,
on all three backends. -/
theorem c10_key_case_sensitive_mods_insensitive (kt : List (String × Nat))
    (k kc : String) (v : Nat)
    (hmem : alookup kt k = some v)
    (hcase : pyUpper kc = pyUpper k)
    (hne : kc ≠ k)
    (habs : alookup kt kc = none)
    (h0x : startsWith0x kc.data = false)
    (hparts : pyParts kc = [kc]) :
    Windows.translate kt kc = .error (.keyError kc)
  ∧ Posix.translate kt kc = .error (.keyError kc)
  ∧ Xserver.translate kt kc = .error (.keyError kc)
  ∧ (∀ (tbl : List (String × Nat)) (acc : Nat) (ms1 ms2 : List String),
      ms1.map pyUpper = ms2.map pyUpper →
      resolveModsAux tbl acc ms1 = resolveModsAux tbl acc ms2) := by
  refine ⟨?_, ?_, ?_, ?_⟩
  · simp [Windows.translate, translateKeyFirst, hparts, habs, h0x]
  · simp [Posix.translate, translateKeyFirst, hparts, habs, h0x]
  · simp [Xserver.translate, translateHexFirst, hparts, habs, h0x]
  · intro tbl acc ms1
    induction ms1 generalizing acc with
    | nil =>
      intro ms2 hmap
      cases ms2 with
      | nil => rfl
      | cons b bs => simp at hmap
    | cons a as ih =>
      intro ms2 hmap
      cases ms2 with
      | nil => simp at hmap
      | cons b bs =>
        simp only [List.map_cons, List.cons.injEq] at hmap
        obtain ⟨h1, h2⟩ := hmap
        simp only [resolveModsAux, h1]
        cases hv : alookup tbl (pyUpper b) with
        | none => rfl
        | some v2 => exact ih (acc ||| v2) bs h2

/-- Claim C10 witness: with the key table holding F6, the lower-case spelling
f6 fails the key lookup on all three backends. -/
theorem c10_key_case_witness :
    Windows.translate [("F6", 70)] "f6" = .error (.keyError "f6")
    ∧ Posix.translate [("F6", 70)] "f6" = .error (.keyError "f6")
    ∧ Xserver.translate [("F6", 70)] "f6" = .error (.keyError "f6") :=
  ⟨(c10_key_case_sensitive_mods_insensitive [("F6", 70)] "F6" "f6" 70
      (by decide) (by decide) (by decide) (by decide) (by decide) (by decide)).1,
   (c10_key_case_sensitive_mods_insensitive [("F6", 70)] "F6" "f6" 70
      (by decide) (by decide) (by decide) (by decide) (by decide) (by decide)).2.1,
   (c10_key_case_sensitive_mods_insensitive [("F6", 70)] "F6" "f6" 70
      (by decide) (by decide) (by decide) (by decide) (by decide) (by decide)).2.2.1⟩
